import Mathlib

/-!
Shallow embedding of the LLM Observability service layer of dd-trace-py,
source file ddtrace/llmobs/_llmobs.py. Python dictionaries are modelled as
association lists with unique keys, JSON serialization is abstracted as the
identity on the modelled value universe (dumps and loads are mutually inverse
on JSON-representable values), and log output is not modelled except where a
claim depends on which diagnostic fires, in which case the function returns
an explicit error or warning value.
-/

namespace DDLLMObs

/-- Universe of Python values used for span tag payloads and arguments. -/
inductive PyVal where
  | vnone : PyVal
  | vstr : String → PyVal
  | vint : Int → PyVal
  | vlist : List PyVal → PyVal
  | vdict : List (String × PyVal) → PyVal

/-- Python truthiness for the modelled value universe. -/
def pyTruthy : PyVal → Bool
  | PyVal.vnone => false
  | PyVal.vstr s => !s.isEmpty
  | PyVal.vint n => decide (n ≠ 0)
  | PyVal.vlist xs => !xs.isEmpty
  | PyVal.vdict d => !d.isEmpty

/-- Truthiness of a value that may be absent (dict.get returning None). -/
def pyTruthyOpt : Option PyVal → Bool
  | none => false
  | some v => pyTruthy v

/-- Assignment d[k] = v on a Python dict modelled as an association list:
an existing key keeps its position and receives the new value, a new key is
appended at the end, matching insertion-ordered Python dict semantics. -/
def dinsert {α : Type} : List (String × α) → String → α → List (String × α)
  | [], k, v => [(k, v)]
  | (k0, v0) :: rest, k, v =>
    if k0 = k then (k0, v) :: rest else (k0, v0) :: dinsert rest k v

/-- Lookup d.get(k) on a Python dict modelled as an association list. -/
def dlookup {α : Type} : List (String × α) → String → Option α
  | [], _ => none
  | (k0, v0) :: rest, k => if k0 = k then some v0 else dlookup rest k

/-- The keys of a modelled dict, in order. -/
def keysOf {α : Type} (d : List (String × α)) : List String :=
  d.map Prod.fst

/-- Well-formedness of a modelled dict: keys are pairwise distinct, which is
an invariant of every real Python dict. -/
def nodupKeys {α : Type} (d : List (String × α)) : Prop :=
  (keysOf d).Nodup

/-- Two modelled dicts have no key in common. -/
def disjointKeys {α : Type} (d1 d2 : List (String × α)) : Prop :=
  ∀ k ∈ keysOf d1, k ∉ keysOf d2

/-- The dict.update(upd) loop of the tag merge: each pair of upd is assigned
into old in order, new values winning on an existing key. -/
def dictUpdate {α : Type} (old upd : List (String × α)) : List (String × α) :=
  upd.foldl (fun acc p => dinsert acc p.1 p.2) old

/-- ASCII lowercase of a character, as the Python str.lower method acts on
the metric-kind strings in play. -/
def lowerChar (c : Char) : Char :=
  if 65 ≤ c.toNat ∧ c.toNat ≤ 90 then Char.ofNat (c.toNat + 32) else c

/-- The Python str.lower method, modelled over the character list. -/
def strLower (s : String) : String :=
  ⟨s.data.map lowerChar⟩

/-- Tag key constants. Modelled from the spec: the constants module
ddtrace/llmobs/_constants.py is not under src/; only the pairwise
distinctness of these keys matters to the claims. -/
def SPAN_KIND : String := "_ml_obs.meta.span.kind"

def MODEL_NAME : String := "_ml_obs.meta.model_name"

def MODEL_PROVIDER : String := "_ml_obs.meta.model_provider"

def SESSION_ID : String := "_ml_obs.session_id"

def ML_APP : String := "_ml_obs.meta.ml_app"

def TAGS : String := "_ml_obs.tags"

def METADATA : String := "_ml_obs.meta.metadata"

def METRICS : String := "_ml_obs.metrics"

def INPUT_PARAMETERS : String := "_ml_obs.meta.input.parameters"

def INPUT_PROMPT : String := "_ml_obs.meta.input.prompt"

def INPUT_MESSAGES : String := "_ml_obs.meta.input.messages"

def OUTPUT_MESSAGES : String := "_ml_obs.meta.output.messages"

def INPUT_DOCUMENTS : String := "_ml_obs.meta.input.documents"

def OUTPUT_DOCUMENTS : String := "_ml_obs.meta.output.documents"

def INPUT_VALUE : String := "_ml_obs.meta.input.value"

def OUTPUT_VALUE : String := "_ml_obs.meta.output.value"

def PARENT_ID_KEY : String := "_ml_obs.llmobs_parent_id"

def PROPAGATED_PARENT_ID_KEY : String := "_dd.p.llmobs_parent_id"

/-- The span type stamped by the span factory (SpanTypes.LLM). -/
def SpanTypes_LLM : String := "llm"

/-- The slice of a generic-tracer span that the LLMObs layer reads and
writes: name, span type, finished flag, and the tag mapping. Values stored
through set_tag_str stand for their JSON serialization (dumps and loads are
abstracted as mutually inverse). -/
structure MSpan where
  name : String
  spanType : String
  finished : Bool
  tags : List (String × PyVal)

/-- span.set_tag_str. -/
def MSpan.set_tag_str (s : MSpan) (k : String) (v : PyVal) : MSpan :=
  { s with tags := dinsert s.tags k v }

/-- span.get_tag. -/
def MSpan.get_tag (s : MSpan) (k : String) : Option PyVal :=
  dlookup s.tags k

/-- LLMObs._tag_span_tags (lines 718-736): a falsy or non-dict argument
writes nothing; when the span already carries a TAGS blob that parses to a
dict, the new pairs are shallow-merged over it (new wins); a blob that does
not parse to a dict raises inside the try block, which is caught and writes
nothing; otherwise the new dict is written fresh. -/
def _tag_span_tags (span : MSpan) (span_tags : PyVal) : MSpan :=
  match span_tags with
  | PyVal.vdict d =>
    if d.isEmpty then span
    else
      match span.get_tag TAGS with
      | some (PyVal.vdict cur) => span.set_tag_str TAGS (PyVal.vdict (dictUpdate cur d))
      | some _ => span
      | none => span.set_tag_str TAGS (PyVal.vdict d)
  | _ => span

/-- LLMObs._tag_metadata (lines 738-746): falsy writes nothing, a non-dict
warns and writes nothing, otherwise the dict is written wholesale. -/
def _tag_metadata (span : MSpan) (metadata : PyVal) : MSpan :=
  match metadata with
  | PyVal.vdict d => if d.isEmpty then span else span.set_tag_str METADATA (PyVal.vdict d)
  | _ => span

/-- LLMObs._tag_metrics (lines 748-756): same shape as metadata. -/
def _tag_metrics (span : MSpan) (metrics : PyVal) : MSpan :=
  match metrics with
  | PyVal.vdict d => if d.isEmpty then span else span.set_tag_str METRICS (PyVal.vdict d)
  | _ => span

/-- LLMObs._tag_params (lines 639-647): a non-dict warns and writes nothing,
otherwise the dict is written, with no falsiness guard. -/
def _tag_params (span : MSpan) (params : PyVal) : MSpan :=
  match params with
  | PyVal.vdict d => span.set_tag_str INPUT_PARAMETERS (PyVal.vdict d)
  | _ => span

/-- Modelled from the spec: validate_prompt from ddtrace/llmobs/_utils.py is
not under src/. A prompt is a mapping whose template, id and version entries,
when present, are strings, and whose variables entry, when present, is a
mapping; anything else fails validation with a TypeError. -/
def validate_prompt (prompt : PyVal) : Option PyVal :=
  match prompt with
  | PyVal.vdict d =>
    let okStr : Option PyVal → Bool := fun
      | none => true
      | some (PyVal.vstr _) => true
      | some _ => false
    let okDict : Option PyVal → Bool := fun
      | none => true
      | some (PyVal.vdict _) => true
      | some _ => false
    if okStr (dlookup d "template") && okStr (dlookup d "id") &&
        okStr (dlookup d "version") && okDict (dlookup d "variables") then
      some (PyVal.vdict d)
    else none
  | _ => none

/-- LLMObs._tag_prompt (lines 629-637): validation failure is caught and
writes nothing. -/
def _tag_prompt (span : MSpan) (prompt : PyVal) : MSpan :=
  match validate_prompt prompt with
  | some p => span.set_tag_str INPUT_PROMPT p
  | none => span

/-- Modelled from the spec: the Messages normalizer of ddtrace/llmobs/utils.py
is not under src/. A single message is a string or a mapping carrying a string
content and an optional string role; it normalizes to a content/role mapping. -/
def toMessage : PyVal → Option PyVal
  | PyVal.vstr s => some (PyVal.vdict [("content", PyVal.vstr s)])
  | PyVal.vdict d =>
    match dlookup d "content", dlookup d "role" with
    | some (PyVal.vstr c), none => some (PyVal.vdict [("content", PyVal.vstr c)])
    | some (PyVal.vstr c), some (PyVal.vstr r) =>
      some (PyVal.vdict [("content", PyVal.vstr c), ("role", PyVal.vstr r)])
    | _, _ => none
  | _ => none

/-- Modelled from the spec: a messages payload is a single message or an
ordered sequence of messages; any ill-formed member raises a TypeError. -/
def parseMessages : PyVal → Option (List PyVal)
  | PyVal.vlist xs => xs.mapM toMessage
  | v => (toMessage v).map (fun m => [m])

/-- Modelled from the spec: a single document is a string or a mapping with a
string text entry. -/
def toDocument : PyVal → Option PyVal
  | PyVal.vstr s => some (PyVal.vdict [("text", PyVal.vstr s)])
  | PyVal.vdict d =>
    match dlookup d "text" with
    | some (PyVal.vstr _) => some (PyVal.vdict d)
    | _ => none
  | _ => none

/-- Modelled from the spec: a documents payload is a single document or an
ordered sequence of documents. -/
def parseDocuments : PyVal → Option (List PyVal)
  | PyVal.vlist xs => xs.mapM toDocument
  | v => (toDocument v).map (fun m => [m])

/-- LLMObs._tag_llm_io (lines 649-671): parse failures are caught per
direction, and an empty normalized sequence is not written. -/
def _tag_llm_io (span : MSpan) (input_data output_data : Option PyVal) : MSpan :=
  let span :=
    match input_data with
    | none => span
    | some v =>
      match parseMessages v with
      | some msgs =>
        if msgs.isEmpty then span else span.set_tag_str INPUT_MESSAGES (PyVal.vlist msgs)
      | none => span
  match output_data with
  | none => span
  | some v =>
    match parseMessages v with
    | some msgs =>
      if msgs.isEmpty then span else span.set_tag_str OUTPUT_MESSAGES (PyVal.vlist msgs)
    | none => span

/-- LLMObs._tag_embedding_io (lines 673-688). -/
def _tag_embedding_io (span : MSpan) (input_documents output_text : Option PyVal) : MSpan :=
  let span :=
    match input_documents with
    | none => span
    | some v =>
      match parseDocuments v with
      | some docs =>
        if docs.isEmpty then span else span.set_tag_str INPUT_DOCUMENTS (PyVal.vlist docs)
      | none => span
  match output_text with
  | none => span
  | some v => span.set_tag_str OUTPUT_VALUE v

/-- LLMObs._tag_retrieval_io (lines 690-706). -/
def _tag_retrieval_io (span : MSpan) (input_text output_documents : Option PyVal) : MSpan :=
  let span :=
    match input_text with
    | none => span
    | some v => span.set_tag_str INPUT_VALUE v
  match output_documents with
  | none => span
  | some v =>
    match parseDocuments v with
    | some docs =>
      if docs.isEmpty then span else span.set_tag_str OUTPUT_DOCUMENTS (PyVal.vlist docs)
    | none => span

/-- LLMObs._tag_text_io (lines 708-716). -/
def _tag_text_io (span : MSpan) (input_value output_value : Option PyVal) : MSpan :=
  let span :=
    match input_value with
    | none => span
    | some v => span.set_tag_str INPUT_VALUE v
  match output_value with
  | none => span
  | some v => span.set_tag_str OUTPUT_VALUE v

/-- The keyword arguments of LLMObs.annotate; an absent argument is none. -/
structure AnnotateArgs where
  parameters : Option PyVal := none
  prompt : Option PyVal := none
  input_data : Option PyVal := none
  output_data : Option PyVal := none
  metadata : Option PyVal := none
  metrics : Option PyVal := none
  tags : Option PyVal := none
  nameOverride : Option String := none

/-- Falsiness of the span-kind tag value read by annotate. -/
def spanKindFalsy : Option PyVal → Bool
  | none => true
  | some v => !pyTruthy v

/-- LLMObs.annotate (lines 547-627) for an explicitly resolved span: a span
whose type is not the LLM span type only warns, a finished span only warns,
and otherwise the sub-taggers run in source order, the span kind being read
after the tag merge and the input/output dispatch running only for a truthy
span kind. -/
def annotate (span : MSpan) (args : AnnotateArgs) : MSpan :=
  if span.spanType ≠ SpanTypes_LLM then span
  else if span.finished = true then span
  else
    let s1 := match args.metadata with
      | some m => _tag_metadata span m
      | none => span
    let s2 := match args.metrics with
      | some m => _tag_metrics s1 m
      | none => s1
    let s3 := match args.tags with
      | some t => _tag_span_tags s2 t
      | none => s2
    let span_kind := s3.get_tag SPAN_KIND
    let s4 := match args.parameters with
      | some p => _tag_params s3 p
      | none => s3
    let s5 := match args.nameOverride with
      | some n => { s4 with name := n }
      | none => s4
    let s6 := match args.prompt with
      | some p => _tag_prompt s5 p
      | none => s5
    if spanKindFalsy span_kind = true then s6
    else if (args.input_data.isNone && args.output_data.isNone) = true then s6
    else
      match span_kind with
      | some (PyVal.vstr "llm") => _tag_llm_io s6 args.input_data args.output_data
      | some (PyVal.vstr "embedding") => _tag_embedding_io s6 args.input_data args.output_data
      | some (PyVal.vstr "retrieval") => _tag_retrieval_io s6 args.input_data args.output_data
      | _ => _tag_text_io s6 args.input_data args.output_data

/-- One entry of the annotation-context registry: annotation id, ambient
context id, and the deferred annotate keyword payload. -/
structure AnnEntry where
  annotationId : Nat
  ctxId : Nat
  kwargs : AnnotateArgs

/-- LLMObs._do_annotations (lines 109-119): a span whose type is not the LLM
span type returns before the lock is taken; otherwise every registry entry
whose ambient context id equals the baggage item of the active trace context
is applied through annotate, in registration order. The baggage item is none
when the active context carries no ambient id, and then matches no entry. -/
def _do_annotations (anns : List AnnEntry) (currentCtxId : Option Nat) (span : MSpan) : MSpan :=
  if span.spanType ≠ SpanTypes_LLM then span
  else
    anns.foldl (fun sp e => if currentCtxId = some e.ctxId then annotate sp e.kwargs else sp) span

/-- The deregister closure of LLMObs.annotation_context (lines 308-315):
linear scan, popping the first entry whose annotation id matches; when no
entry matches the loop only logs. -/
def deregister_annotation (annotation_id : Nat) : List AnnEntry → List AnnEntry
  | [] => []
  | e :: rest =>
    if e.annotationId = annotation_id then rest
    else e :: deregister_annotation annotation_id rest

/-- The ambient inputs of LLMObs._start_span that come from helper walks over
the ancestor chain (_get_session_id, _get_ml_app, _get_llmobs_parent_id live
in ddtrace/llmobs/_utils.py, outside src/, so their results are taken as
inputs) together with the propagated-parent tag the fresh span may carry. -/
structure SpanEnv where
  sessionId : Option String
  mlApp : String
  llmobsParentId : Option String
  propagatedParent : Option String

/-- The expression _get_llmobs_parent_id(span) or "undefined": a missing or
empty parent id falls back to the string undefined. -/
def parentIdOrUndefined : Option String → String
  | some p => if p = "" then "undefined" else p
  | none => "undefined"

/-- LLMObs._start_span (lines 362-391): the name defaults to the operation
kind, the kind tag is set unconditionally, model tags only when supplied,
session id from the explicit argument else the ancestor walk, ml app from the
explicit argument else the resolved default, and the parent-id tag is written
only when no propagated-parent tag is already present. -/
def _start_span (env : SpanEnv) (operation_kind : String) (name : Option String)
    (session_id : Option String) (model_name : Option String)
    (model_provider : Option String) (ml_app : Option String) : MSpan :=
  let nm := match name with
    | none => operation_kind
    | some n => n
  let span : MSpan :=
    { name := nm, spanType := SpanTypes_LLM, finished := false,
      tags := match env.propagatedParent with
        | some p => [(PROPAGATED_PARENT_ID_KEY, PyVal.vstr p)]
        | none => [] }
  let span := span.set_tag_str SPAN_KIND (PyVal.vstr operation_kind)
  let span := match model_name with
    | some m => span.set_tag_str MODEL_NAME (PyVal.vstr m)
    | none => span
  let span := match model_provider with
    | some m => span.set_tag_str MODEL_PROVIDER (PyVal.vstr m)
    | none => span
  let sid := match session_id with
    | some s => some s
    | none => env.sessionId
  let span := match sid with
    | some s => span.set_tag_str SESSION_ID (PyVal.vstr s)
    | none => span
  let mla := match ml_app with
    | some m => m
    | none => env.mlApp
  let span := span.set_tag_str ML_APP (PyVal.vstr mla)
  if (span.get_tag PROPAGATED_PARENT_ID_KEY).isNone then
    span.set_tag_str PARENT_ID_KEY (PyVal.vstr (parentIdOrUndefined env.llmobsParentId))
  else span

/-- LLMObs.llm (lines 393-423): an absent model name or provider is replaced
by the string custom before the span factory runs. -/
def llm (env : SpanEnv) (model_name name model_provider session_id ml_app : Option String) :
    MSpan :=
  let mn := match model_name with
    | none => "custom"
    | some m => m
  let mp := match model_provider with
    | none => "custom"
    | some m => m
  _start_span env "llm" name session_id (some mn) (some mp) ml_app

/-- LLMObs.embedding (lines 491-527): same custom substitution as llm. -/
def embedding (env : SpanEnv) (model_name name model_provider session_id ml_app : Option String) :
    MSpan :=
  let mn := match model_name with
    | none => "custom"
    | some m => m
  let mp := match model_provider with
    | none => "custom"
    | some m => m
  _start_span env "embedding" name session_id (some mn) (some mp) ml_app

/-- The process-wide state read by submit_evaluation: the enabled flag, the
configured backend credential and default ml app (the empty string standing
for an unset, falsy configuration value), the library version stamped into
the default tags, and the current wall clock in milliseconds. -/
structure EvalConfig where
  enabled : Bool
  apiKey : String
  mlAppDefault : String
  ddtraceVersion : String
  nowMs : Int

/-- The value argument of submit_evaluation: a string or a numeric value
(int and float are both numeric; no claim depends on fractional values). -/
inductive EvalValue where
  | vs : String → EvalValue
  | vnum : Int → EvalValue
deriving DecidableEq

/-- True when the value is a Python str. -/
def EvalValue.isStr : EvalValue → Bool
  | EvalValue.vs _ => true
  | EvalValue.vnum _ => false

/-- True when the value is a Python int or float. -/
def EvalValue.isNum : EvalValue → Bool
  | EvalValue.vs _ => false
  | EvalValue.vnum _ => true

/-- The reason the first failing validation step of submit_evaluation gives
in its warning, one constructor per abort site in source order. -/
inductive EvalErr where
  | notEnabled
  | noApiKey
  | spanContextNotDict
  | noMlApp
  | badTimestamp
  | missingIds
  | emptyLabel
  | badMetricType
  | badCategoricalValue
  | badScoreValue
  | tagsNotDict
deriving DecidableEq

/-- The immutable evaluation-metric record handed to the writer queue. -/
structure EvalRecord where
  span_id : PyVal
  trace_id : PyVal
  label : String
  metric_type : String
  timestamp_ms : Int
  value_key : String
  value : EvalValue
  ml_app : String
  tags : List String
  metadata : Option PyVal

/-- The expression ml_app if ml_app else config._llmobs_ml_app (line 802):
a falsy explicit argument falls back to the process default. -/
def resolveMlApp (cfg : EvalConfig) (ml_app : Option String) : String :=
  match ml_app with
  | some m => if m = "" then cfg.mlAppDefault else m
  | none => cfg.mlAppDefault

/-- The expression timestamp_ms if timestamp_ms else int(time.time() * 1000)
(line 810): any falsy value, zero included, is replaced by the clock. -/
def resolveTs (cfg : EvalConfig) (timestamp_ms : Option Int) : Int :=
  match timestamp_ms with
  | some t => if t = 0 then cfg.nowMs else t
  | none => cfg.nowMs

/-- The mapping of the metric-type argument after lowering, with the
deprecated numerical alias coerced to score (lines 829-835). -/
def mappedKind (metric_type : String) : String :=
  let mt0 := strLower metric_type
  if mt0 = "numerical" then "score" else mt0

/-- True when a tags argument is present and not a mapping (line 843). -/
def tagsNotDict : Option PyVal → Bool
  | some (PyVal.vdict _) => false
  | some _ => true
  | none => false

/-- The evaluation_tags seeding and override loop (lines 847-858): default
pairs first, then each caller pair whose value coerces to text assigned over
them, pairs with a non-text value being skipped individually. -/
def buildEvalTags (cfg : EvalConfig) (mlApp : String) (tags : Option PyVal) :
    List (String × String) :=
  let base := [("ddtrace.version", cfg.ddtraceVersion), ("ml_app", mlApp)]
  match tags with
  | some (PyVal.vdict td) =>
    td.foldl
      (fun acc p =>
        match p.2 with
        | PyVal.vstr s => dinsert acc p.1 s
        | _ => acc)
      base
  | _ => base

/-- The metadata field of the record (lines 871-877): a falsy metadata is
skipped, a truthy non-dict only warns and the record goes out without
metadata, and a dict survives the serialization round trip unchanged. -/
def evalMetadata : Option PyVal → Option PyVal
  | some (PyVal.vdict d) => if d.isEmpty then none else some (PyVal.vdict d)
  | _ => none

/-- LLMObs.submit_evaluation (lines 758-879). The result is the enqueued
record, or the abort site of the first failing validation step; the function
is total, so no path raises into the caller. Source order of the checks:
enabled, credential, span_context a mapping, ml app resolvable, timestamp,
both ids present and truthy, label, metric type, value type, tags type. -/
def submit_evaluation (cfg : EvalConfig) (span_context : PyVal) (label : String)
    (metric_type : String) (value : EvalValue) (tags : Option PyVal)
    (ml_app : Option String) (timestamp_ms : Option Int) (metadata : Option PyVal) :
    Except EvalErr EvalRecord :=
  if cfg.enabled = false then Except.error EvalErr.notEnabled
  else if cfg.apiKey = "" then Except.error EvalErr.noApiKey
  else
    match span_context with
    | PyVal.vdict sc =>
      let mla := resolveMlApp cfg ml_app
      if mla = "" then Except.error EvalErr.noMlApp
      else
        let ts := resolveTs cfg timestamp_ms
        if ts < 0 then Except.error EvalErr.badTimestamp
        else
          let span_id := dlookup sc "span_id"
          let trace_id := dlookup sc "trace_id"
          if (pyTruthyOpt span_id && pyTruthyOpt trace_id) = false then
            Except.error EvalErr.missingIds
          else if label = "" then Except.error EvalErr.emptyLabel
          else if metric_type = "" ∨
              (strLower metric_type ≠ "categorical" ∧ strLower metric_type ≠ "numerical" ∧
                strLower metric_type ≠ "score") then
            Except.error EvalErr.badMetricType
          else
            let mt := mappedKind metric_type
            if mt = "categorical" ∧ value.isStr = false then
              Except.error EvalErr.badCategoricalValue
            else if mt = "score" ∧ value.isNum = false then
              Except.error EvalErr.badScoreValue
            else if tagsNotDict tags = true then Except.error EvalErr.tagsNotDict
            else
              Except.ok
                { span_id := span_id.getD PyVal.vnone
                  trace_id := trace_id.getD PyVal.vnone
                  label := label
                  metric_type := strLower mt
                  timestamp_ms := ts
                  value_key := mt ++ "_value"
                  value := value
                  ml_app := mla
                  tags := (buildEvalTags cfg mla tags).map (fun p => p.1 ++ ":" ++ p.2)
                  metadata := evalMetadata metadata }
    | _ => Except.error EvalErr.spanContextNotDict

/-- Modelled from the spec: the validation order exactly as the claim states
it, with the both-ids requirement part of the span-context step and checked
before the ml-app and timestamp steps. Identical checks to
submit_evaluation, reordered; used only to compare orders. -/
def submit_evaluation_claimOrder (cfg : EvalConfig) (span_context : PyVal) (label : String)
    (metric_type : String) (value : EvalValue) (tags : Option PyVal)
    (ml_app : Option String) (timestamp_ms : Option Int) (metadata : Option PyVal) :
    Except EvalErr EvalRecord :=
  if cfg.enabled = false then Except.error EvalErr.notEnabled
  else if cfg.apiKey = "" then Except.error EvalErr.noApiKey
  else
    match span_context with
    | PyVal.vdict sc =>
      let span_id := dlookup sc "span_id"
      let trace_id := dlookup sc "trace_id"
      if (pyTruthyOpt span_id && pyTruthyOpt trace_id) = false then
        Except.error EvalErr.missingIds
      else
        let mla := resolveMlApp cfg ml_app
        if mla = "" then Except.error EvalErr.noMlApp
        else
          let ts := resolveTs cfg timestamp_ms
          if ts < 0 then Except.error EvalErr.badTimestamp
          else if label = "" then Except.error EvalErr.emptyLabel
          else if metric_type = "" ∨
              (strLower metric_type ≠ "categorical" ∧ strLower metric_type ≠ "numerical" ∧
                strLower metric_type ≠ "score") then
            Except.error EvalErr.badMetricType
          else
            let mt := mappedKind metric_type
            if mt = "categorical" ∧ value.isStr = false then
              Except.error EvalErr.badCategoricalValue
            else if mt = "score" ∧ value.isNum = false then
              Except.error EvalErr.badScoreValue
            else if tagsNotDict tags = true then Except.error EvalErr.tagsNotDict
            else
              Except.ok
                { span_id := span_id.getD PyVal.vnone
                  trace_id := trace_id.getD PyVal.vnone
                  label := label
                  metric_type := strLower mt
                  timestamp_ms := ts
                  value_key := mt ++ "_value"
                  value := value
                  ml_app := mla
                  tags := (buildEvalTags cfg mla tags).map (fun p => p.1 ++ ":" ++ p.2)
                  metadata := evalMetadata metadata }
    | _ => Except.error EvalErr.spanContextNotDict

/-- The trace context returned by the underlying propagator extraction:
physical trace and span ids, and the propagated meta mapping. -/
structure MContext where
  trace_id : Option Nat
  span_id : Option Nat
  meta : List (String × String)

/-- The diagnostics activate_distributed_headers can log. -/
inductive PropWarn where
  | notEnabled
  | missingIds
  | missingParentId
deriving DecidableEq

/-- LLMObs.activate_distributed_headers (lines 902-921), taking the context
the external HTTPPropagator.extract returned for the carrier: a missing
physical trace or span id aborts with a warning and activates nothing; a
missing propagated logical-parent key only warns and the context is
activated regardless. The first component is the context handed to the
context provider for activation, the second the logged diagnostics. -/
def activate_distributed_headers (enabled : Bool) (context : MContext) :
    Option MContext × List PropWarn :=
  if enabled = false then (none, [PropWarn.notEnabled])
  else if (context.trace_id.isNone || context.span_id.isNone) = true then
    (none, [PropWarn.missingIds])
  else if (dlookup context.meta PROPAGATED_PARENT_ID_KEY).isNone then
    (some context, [PropWarn.missingParentId])
  else (some context, [])

/-- A concrete enabled configuration used to instantiate the evaluation
theorems. -/
def evalCfgW : EvalConfig :=
  { enabled := true, apiKey := "test-api-key", mlAppDefault := "test-app",
    ddtraceVersion := "2.9.0", nowMs := 1700000000000 }

/-- A concrete well-formed span reference, as export_span would produce. -/
def scListW : List (String × PyVal) :=
  [("span_id", PyVal.vstr "6120430562754623726"), ("trace_id", PyVal.vstr "66b9b2a25")]

/-- The same span reference as the dict value handed to submit_evaluation. -/
def scW : PyVal := PyVal.vdict scListW

/-! Lemmas about the modelled dict operations. -/

theorem dlookup_dinsert_self {α : Type} (d : List (String × α)) (k : String) (v : α) :
    dlookup (dinsert d k v) k = some v := by
  induction d with
  | nil => simp [dinsert, dlookup]
  | cons p rest ih =>
    obtain ⟨k0, v0⟩ := p
    by_cases h : k0 = k
    · simp [dinsert, dlookup, h]
    · simp [dinsert, dlookup, h, ih]

theorem dlookup_dinsert_other {α : Type} (d : List (String × α)) (k k' : String) (v : α)
    (h : k' ≠ k) : dlookup (dinsert d k' v) k = dlookup d k := by
  induction d with
  | nil => simp [dinsert, dlookup, h]
  | cons p rest ih =>
    obtain ⟨k0, v0⟩ := p
    by_cases h0 : k0 = k'
    · subst h0
      simp [dinsert, dlookup, h]
    · simp [dinsert, dlookup, h0, ih]

theorem dlookup_eq_none_of_not_mem {α : Type} (d : List (String × α)) (k : String)
    (h : k ∉ keysOf d) : dlookup d k = none := by
  induction d with
  | nil => rfl
  | cons p rest ih =>
    obtain ⟨k0, v0⟩ := p
    have h1 : k0 ≠ k := by
      intro he
      exact h (by simp [keysOf, he])
    have h2 : k ∉ keysOf rest := by
      intro hm
      exact h (by simp [keysOf] at hm ⊢; exact Or.inr hm)
    simp [dlookup, h1, ih h2]

theorem exists_dlookup_of_mem {α : Type} (d : List (String × α)) (k : String)
    (h : k ∈ keysOf d) : ∃ v, dlookup d k = some v := by
  induction d with
  | nil => simp [keysOf] at h
  | cons p rest ih =>
    obtain ⟨k0, v0⟩ := p
    by_cases h0 : k0 = k
    · exact ⟨v0, by simp [dlookup, h0]⟩
    · have hm : k ∈ keysOf rest := by
        simp [keysOf] at h
        rcases h with h | h
        · exact absurd h.symm h0
        · simpa [keysOf] using h
      obtain ⟨v, hv⟩ := ih hm
      exact ⟨v, by simp [dlookup, h0, hv]⟩

theorem dictUpdate_cons {α : Type} (d1 : List (String × α)) (k : String) (v : α)
    (rest : List (String × α)) :
    dictUpdate d1 ((k, v) :: rest) = dictUpdate (dinsert d1 k v) rest := rfl

theorem dictUpdate_lookup_not_mem {α : Type} (d2 : List (String × α)) :
    ∀ (d1 : List (String × α)) (k : String), k ∉ keysOf d2 →
      dlookup (dictUpdate d1 d2) k = dlookup d1 k := by
  induction d2 with
  | nil => intro d1 k _; rfl
  | cons p rest ih =>
    intro d1 k h
    obtain ⟨k0, v0⟩ := p
    have h1 : k0 ≠ k := by
      intro he
      exact h (by simp [keysOf, he])
    have h2 : k ∉ keysOf rest := by
      intro hm
      exact h (by simp [keysOf] at hm ⊢; exact Or.inr hm)
    rw [dictUpdate_cons, ih _ _ h2, dlookup_dinsert_other _ _ _ _ h1]

theorem dictUpdate_lookup_right {α : Type} (d2 : List (String × α)) :
    ∀ (d1 : List (String × α)) (k : String) (v : α), nodupKeys d2 →
      dlookup d2 k = some v → dlookup (dictUpdate d1 d2) k = some v := by
  induction d2 with
  | nil => intro d1 k v _ hl; simp [dlookup] at hl
  | cons p rest ih =>
    intro d1 k v hnd hl
    obtain ⟨k0, v0⟩ := p
    have hnd' : k0 ∉ keysOf rest ∧ (keysOf rest).Nodup := by
      simpa [nodupKeys, keysOf] using hnd
    by_cases h : k0 = k
    · subst h
      have hv : v0 = v := by simpa [dlookup] using hl
      rw [dictUpdate_cons, dictUpdate_lookup_not_mem rest _ _ hnd'.1,
        dlookup_dinsert_self, hv]
    · have hl' : dlookup rest k = some v := by simpa [dlookup, h] using hl
      rw [dictUpdate_cons]
      exact ih _ _ _ hnd'.2 hl'

theorem dictUpdate_comm_lookup {α : Type} (d1 d2 : List (String × α))
    (h1 : nodupKeys d1) (h2 : nodupKeys d2) (hd : disjointKeys d1 d2) (k : String) :
    dlookup (dictUpdate d1 d2) k = dlookup (dictUpdate d2 d1) k := by
  by_cases m1 : k ∈ keysOf d1
  · obtain ⟨v, hv⟩ := exists_dlookup_of_mem d1 k m1
    have m2 : k ∉ keysOf d2 := hd k m1
    rw [dictUpdate_lookup_not_mem d2 d1 k m2, hv,
      dictUpdate_lookup_right d1 d2 k v h1 hv]
  · by_cases m2 : k ∈ keysOf d2
    · obtain ⟨v, hv⟩ := exists_dlookup_of_mem d2 k m2
      rw [dictUpdate_lookup_right d2 d1 k v h2 hv,
        dictUpdate_lookup_not_mem d1 d2 k m1, hv]
    · rw [dictUpdate_lookup_not_mem d2 d1 k m2, dictUpdate_lookup_not_mem d1 d2 k m1,
        dlookup_eq_none_of_not_mem d1 k m1, dlookup_eq_none_of_not_mem d2 k m2]

/-! Lemmas about the span model and the taggers. -/

theorem set_tag_str_spanType (s : MSpan) (k : String) (v : PyVal) :
    (s.set_tag_str k v).spanType = s.spanType := rfl

theorem set_tag_str_finished (s : MSpan) (k : String) (v : PyVal) :
    (s.set_tag_str k v).finished = s.finished := rfl

theorem set_tag_str_name (s : MSpan) (k : String) (v : PyVal) :
    (s.set_tag_str k v).name = s.name := rfl

theorem get_tag_set_self (s : MSpan) (k : String) (v : PyVal) :
    (s.set_tag_str k v).get_tag k = some v :=
  dlookup_dinsert_self s.tags k v

theorem get_tag_set_other (s : MSpan) (k k' : String) (v : PyVal) (h : k' ≠ k) :
    (s.set_tag_str k' v).get_tag k = s.get_tag k :=
  dlookup_dinsert_other s.tags k k' v h

theorem tag_span_tags_fresh (s : MSpan) (d : List (String × PyVal))
    (hne : d ≠ []) (h : s.get_tag TAGS = none) :
    _tag_span_tags s (PyVal.vdict d) = s.set_tag_str TAGS (PyVal.vdict d) := by
  have he : d.isEmpty = false := by
    cases d with
    | nil => exact absurd rfl hne
    | cons a l => rfl
  simp [_tag_span_tags, he, h]

theorem tag_span_tags_merge (s : MSpan) (cur d : List (String × PyVal))
    (hne : d ≠ []) (h : s.get_tag TAGS = some (PyVal.vdict cur)) :
    _tag_span_tags s (PyVal.vdict d) = s.set_tag_str TAGS (PyVal.vdict (dictUpdate cur d)) := by
  have he : d.isEmpty = false := by
    cases d with
    | nil => exact absurd rfl hne
    | cons a l => rfl
  simp [_tag_span_tags, he, h]

theorem annotate_tags_only (span : MSpan) (hT : span.spanType = SpanTypes_LLM)
    (hF : span.finished = false) (t : PyVal) :
    annotate span { tags := some t } = _tag_span_tags span t := by
  unfold annotate
  rw [if_neg (by simp [hT]), if_neg (by simp [hF])]
  simp

/-- C2: for every span whose finished flag is true, annotate is a no-op for
every annotation sub-call (tags, metadata, metrics, prompt, name override and
input or output data), leaving the tag map and the name unchanged. -/
theorem annotate_finished_noop (nm ty : String) (tg : List (String × PyVal))
    (args : AnnotateArgs) :
    annotate { name := nm, spanType := ty, finished := true, tags := tg } args
      = { name := nm, spanType := ty, finished := true, tags := tg } := by
  unfold annotate
  by_cases h : ty ≠ SpanTypes_LLM
  · rw [if_pos h]
  · rw [if_neg h, if_pos rfl]

/-- C3: the tag-dictionary merge of _tag_span_tags deserializes the stored
blob and shallow-merges the new pairs over it with new keys winning, is
commutative on disjoint key sets at the level of lookups, is right-biased on
conflicting keys, and merging the dict a to 1 and then the dict a to 2 and
b to 3 onto a fresh span stores the dict a to 2 and b to 3. -/
theorem tag_span_tags_merge_c3 :
    (∀ (span : MSpan) (cur d : List (String × PyVal)),
        span.get_tag TAGS = some (PyVal.vdict cur) → d ≠ [] →
        (_tag_span_tags span (PyVal.vdict d)).get_tag TAGS
          = some (PyVal.vdict (dictUpdate cur d)))
  ∧ (∀ (d1 d2 : List (String × PyVal)), nodupKeys d1 → nodupKeys d2 →
        disjointKeys d1 d2 →
        ∀ k, dlookup (dictUpdate d1 d2) k = dlookup (dictUpdate d2 d1) k)
  ∧ (∀ (d1 d2 : List (String × PyVal)) (k : String) (v : PyVal), nodupKeys d2 →
        dlookup d2 k = some v → dlookup (dictUpdate d1 d2) k = some v)
  ∧ ((_tag_span_tags
        (_tag_span_tags
          { name := "llm", spanType := SpanTypes_LLM, finished := false, tags := [] }
          (PyVal.vdict [("a", PyVal.vint 1)]))
        (PyVal.vdict [("a", PyVal.vint 2), ("b", PyVal.vint 3)])).get_tag TAGS
      = some (PyVal.vdict [("a", PyVal.vint 2), ("b", PyVal.vint 3)])) := by
  refine ⟨?_, ?_, ?_, rfl⟩
  · intro span cur d h hne
    rw [tag_span_tags_merge span cur d hne h, get_tag_set_self]
  · exact fun d1 d2 h1 h2 hd k => dictUpdate_comm_lookup d1 d2 h1 h2 hd k
  · exact fun d1 d2 k v h2 hl => dictUpdate_lookup_right d2 d1 k v h2 hl

/-- Witness for C3 at concrete dicts and a span already carrying a blob. -/
theorem tag_span_tags_merge_c3_witness :
    ((_tag_span_tags
        { name := "w", spanType := SpanTypes_LLM, finished := false,
          tags := [(TAGS, PyVal.vdict [("a", PyVal.vint 1)])] }
        (PyVal.vdict [("b", PyVal.vint 2)])).get_tag TAGS
      = some (PyVal.vdict (dictUpdate [("a", PyVal.vint 1)] [("b", PyVal.vint 2)])))
  ∧ (dlookup (dictUpdate [("a", PyVal.vint 1)] [("b", PyVal.vint 2)]) "a"
      = dlookup (dictUpdate [("b", PyVal.vint 2)] [("a", PyVal.vint 1)]) "a")
  ∧ (dlookup (dictUpdate [("a", PyVal.vint 1)] [("a", PyVal.vint 2), ("b", PyVal.vint 3)]) "a"
      = some (PyVal.vint 2)) := by
  refine ⟨?_, ?_, ?_⟩
  · exact tag_span_tags_merge_c3.1 _ [("a", PyVal.vint 1)] _ rfl (List.cons_ne_nil _ _)
  · exact tag_span_tags_merge_c3.2.1 [("a", PyVal.vint 1)] [("b", PyVal.vint 2)]
      (by unfold nodupKeys keysOf; decide) (by unfold nodupKeys keysOf; decide)
      (by unfold disjointKeys keysOf; decide) "a"
  · exact tag_span_tags_merge_c3.2.2.1 [("a", PyVal.vint 1)]
      [("a", PyVal.vint 2), ("b", PyVal.vint 3)] "a" (PyVal.vint 2)
      (by unfold nodupKeys keysOf; decide) rfl

/-- C4: the span-start hook returns a span of a non-annotatable kind
unchanged before the locked loop runs; for an annotatable span every entry
whose ambient context id equals the active one is applied in registration
order (a non-matching entry is skipped), and for two overlapping scopes
sharing one ambient id the result is the two annotate calls in registration
order, whose tag merge the later-registered entry wins on conflicting keys. -/
theorem do_annotations_c4 (nm : String) (tg0 : List (String × PyVal))
    (c a1 a2 : Nat) (d1 d2 : List (String × PyVal))
    (h1 : d1 ≠ []) (h2 : d2 ≠ []) (hT : dlookup tg0 TAGS = none) :
    (∀ (sp : MSpan) (anns : List AnnEntry) (ctx : Option Nat),
        sp.spanType ≠ SpanTypes_LLM → _do_annotations anns ctx sp = sp)
  ∧ (∀ (sp : MSpan) (e : AnnEntry), e.ctxId ≠ c →
        _do_annotations [e] (some c) sp = sp)
  ∧ (_do_annotations
        [⟨a1, c, { tags := some (PyVal.vdict d1) }⟩,
         ⟨a2, c, { tags := some (PyVal.vdict d2) }⟩] (some c)
        { name := nm, spanType := SpanTypes_LLM, finished := false, tags := tg0 }
      = annotate
          (annotate { name := nm, spanType := SpanTypes_LLM, finished := false, tags := tg0 }
            { tags := some (PyVal.vdict d1) })
          { tags := some (PyVal.vdict d2) })
  ∧ ((_do_annotations
        [⟨a1, c, { tags := some (PyVal.vdict d1) }⟩,
         ⟨a2, c, { tags := some (PyVal.vdict d2) }⟩] (some c)
        { name := nm, spanType := SpanTypes_LLM, finished := false, tags := tg0 }).get_tag TAGS
      = some (PyVal.vdict (dictUpdate d1 d2)))
  ∧ (∀ (k : String) (v : PyVal), nodupKeys d2 → dlookup d2 k = some v →
        dlookup (dictUpdate d1 d2) k = some v) := by
  have hs1 : annotate { name := nm, spanType := SpanTypes_LLM, finished := false, tags := tg0 }
      { tags := some (PyVal.vdict d1) }
      = MSpan.set_tag_str
          { name := nm, spanType := SpanTypes_LLM, finished := false, tags := tg0 }
          TAGS (PyVal.vdict d1) := by
    rw [annotate_tags_only _ rfl rfl,
      tag_span_tags_fresh
        { name := nm, spanType := SpanTypes_LLM, finished := false, tags := tg0 } d1 h1 hT]
  have hs2 : annotate
      (MSpan.set_tag_str
        { name := nm, spanType := SpanTypes_LLM, finished := false, tags := tg0 }
        TAGS (PyVal.vdict d1))
      { tags := some (PyVal.vdict d2) }
      = MSpan.set_tag_str
          (MSpan.set_tag_str
            { name := nm, spanType := SpanTypes_LLM, finished := false, tags := tg0 }
            TAGS (PyVal.vdict d1))
          TAGS (PyVal.vdict (dictUpdate d1 d2)) := by
    rw [annotate_tags_only _ rfl rfl, tag_span_tags_merge _ d1 d2 h2 (get_tag_set_self _ _ _)]
  have hfold : _do_annotations
      [⟨a1, c, { tags := some (PyVal.vdict d1) }⟩,
       ⟨a2, c, { tags := some (PyVal.vdict d2) }⟩] (some c)
      { name := nm, spanType := SpanTypes_LLM, finished := false, tags := tg0 }
      = annotate
          (annotate { name := nm, spanType := SpanTypes_LLM, finished := false, tags := tg0 }
            { tags := some (PyVal.vdict d1) })
          { tags := some (PyVal.vdict d2) } := by
    simp [_do_annotations]
  refine ⟨?_, ?_, hfold, ?_, ?_⟩
  · intro sp anns ctx h
    unfold _do_annotations
    rw [if_pos h]
  · intro sp e hne
    unfold _do_annotations
    by_cases hsp : sp.spanType ≠ SpanTypes_LLM
    · rw [if_pos hsp]
    · rw [if_neg hsp]
      simp [Ne.symm hne]
  · rw [hfold, hs1, hs2]
    exact get_tag_set_self _ _ _
  · exact fun k v hnd hl => dictUpdate_lookup_right d2 d1 k v hnd hl

/-- Witness for C4 at the concrete two-scope scenario of the spec. -/
theorem do_annotations_c4_witness :
    ((_do_annotations
        [⟨1, 5, { tags := some (PyVal.vdict [("x", PyVal.vint 1), ("k", PyVal.vint 9)]) }⟩,
         ⟨2, 5, { tags := some (PyVal.vdict [("x", PyVal.vint 2)]) }⟩] (some 5)
        { name := "w", spanType := SpanTypes_LLM, finished := false, tags := [] }).get_tag TAGS
      = some (PyVal.vdict
          (dictUpdate [("x", PyVal.vint 1), ("k", PyVal.vint 9)] [("x", PyVal.vint 2)])))
  ∧ dlookup (dictUpdate [("x", PyVal.vint 1), ("k", PyVal.vint 9)] [("x", PyVal.vint 2)]) "x"
      = some (PyVal.vint 2) := by
  refine ⟨?_, ?_⟩
  · exact (do_annotations_c4 "w" [] 5 1 2 _ _ (List.cons_ne_nil _ _) (List.cons_ne_nil _ _)
      rfl).2.2.2.1
  · exact (do_annotations_c4 "w" [] 5 1 2 [("x", PyVal.vint 1), ("k", PyVal.vint 9)]
      [("x", PyVal.vint 2)] (List.cons_ne_nil _ _) (List.cons_ne_nil _ _) rfl).2.2.2.2 "x"
      (PyVal.vint 2) (by unfold nodupKeys keysOf; decide) rfl

/-- C8: deregistration removes, by annotation id, exactly the one matching
entry — unique ids assumed, several entries may share one ambient context
id — leaving all other entries in order, and removes nothing when no entry
matches. -/
theorem deregister_c8 :
    (∀ (aid : Nat) (l1 l2 : List AnnEntry) (e : AnnEntry),
        e.annotationId = aid → (∀ e2 ∈ l1, e2.annotationId ≠ aid) →
        deregister_annotation aid (l1 ++ e :: l2) = l1 ++ l2)
  ∧ (∀ (aid : Nat) (l : List AnnEntry),
        (∀ e2 ∈ l, e2.annotationId ≠ aid) →
        deregister_annotation aid l = l) := by
  constructor
  · intro aid l1 l2 e he hl
    induction l1 with
    | nil => simp [ deregister_annotation, he]
    | cons a rest ih =>
      have ha : a.annotationId ≠ aid := hl a (List.mem_cons_self a rest)
      simp only [List.cons_append, deregister_annotation, if_neg ha, List.cons.injEq,
        true_and]
      exact ih (fun e2 h => hl e2 (List.mem_cons_of_mem a h))
  · intro aid l hl
    induction l with
    | nil => rfl
    | cons a rest ih =>
      have ha : a.annotationId ≠ aid := hl a (List.mem_cons_self a rest)
      simp only [ deregister_annotation, if_neg ha, List.cons.injEq, true_and]
      exact ih (fun e2 h => hl e2 (List.mem_cons_of_mem a h))

/-- Witness for C8: removal of the middle entry among three sharing one
ambient id, and the no-match case. -/
theorem deregister_c8_witness :
    deregister_annotation 2
        [⟨1, 5, {}⟩, ⟨2, 5, {}⟩, ⟨3, 5, {}⟩] = [⟨1, 5, {}⟩, ⟨3, 5, {}⟩]
  ∧ deregister_annotation 9 [⟨1, 5, {}⟩] = [⟨1, 5, {}⟩] := by
  constructor
  · exact deregister_c8.1 2 [⟨1, 5, {}⟩] [⟨3, 5, {}⟩] ⟨2, 5, {}⟩ rfl
      (by intro e2 h; simp at h; subst h; decide)
  · exact deregister_c8.2 9 [⟨1, 5, {}⟩]
      (by intro e2 h; simp at h; subst h; decide)

/-- C6: header activation with one or both physical ids missing aborts
with the missing-ids diagnostic and activates nothing; with
both ids present and the logical-parent key absent it logs the degraded
diagnostic and still activates the extracted context; with the key present
it activates silently. -/
theorem activate_headers_c6 :
    (∀ ctx : MContext, ctx.trace_id = none ∨ ctx.span_id = none →
        activate_distributed_headers true ctx = (none, [PropWarn.missingIds]))
  ∧ (∀ (t s : Nat) (meta : List (String × String)),
        dlookup meta PROPAGATED_PARENT_ID_KEY = none →
        activate_distributed_headers true { trace_id := some t, span_id := some s, meta := meta }
          = (some { trace_id := some t, span_id := some s, meta := meta },
              [PropWarn.missingParentId]))
  ∧ (∀ (t s : Nat) (meta : List (String × String)) (p : String),
        dlookup meta PROPAGATED_PARENT_ID_KEY = some p →
        activate_distributed_headers true { trace_id := some t, span_id := some s, meta := meta }
          = (some { trace_id := some t, span_id := some s, meta := meta }, [])) := by
  refine ⟨?_, ?_, ?_⟩
  · intro ctx h
    rcases h with h | h <;> simp [activate_distributed_headers, h]
  · intro t s meta h
    simp [activate_distributed_headers, h]
  · intro t s meta p h
    simp [activate_distributed_headers, h]

/-- Witness for C6 at concrete extracted contexts. -/
theorem activate_headers_c6_witness :
    activate_distributed_headers true { trace_id := none, span_id := some 7, meta := [] }
      = (none, [PropWarn.missingIds])
  ∧ activate_distributed_headers true { trace_id := some 3, span_id := some 7, meta := [] }
      = (some { trace_id := some 3, span_id := some 7, meta := [] },
          [PropWarn.missingParentId])
  ∧ activate_distributed_headers true
      { trace_id := some 3, span_id := some 7,
        meta := [(PROPAGATED_PARENT_ID_KEY, "11")] }
      = (some { trace_id := some 3, span_id := some 7,
                meta := [(PROPAGATED_PARENT_ID_KEY, "11")] }, []) := by
  refine ⟨activate_headers_c6.1 _ (Or.inl rfl), activate_headers_c6.2.1 3 7 [] rfl,
    activate_headers_c6.2.2 3 7 _ "11" ?_⟩
  simp [dlookup]

/-- C7: for every span kind the factory sets the kind tag unconditionally,
defaults the span name to the kind string when no name is given, and writes
no model-name or model-provider tag when those arguments are absent. -/
theorem start_span_c7 :
    (∀ (env : SpanEnv) (kind : String)
        (name session_id model_name model_provider ml_app : Option String),
        (_start_span env kind name session_id model_name model_provider ml_app).get_tag
            SPAN_KIND
          = some (PyVal.vstr kind))
  ∧ (∀ (env : SpanEnv) (kind : String)
        (session_id model_name model_provider ml_app : Option String),
        (_start_span env kind none session_id model_name model_provider ml_app).name = kind)
  ∧ (∀ (env : SpanEnv) (kind : String) (name session_id ml_app : Option String),
        (_start_span env kind name session_id none none ml_app).get_tag MODEL_NAME = none)
  ∧ (∀ (env : SpanEnv) (kind : String) (name session_id ml_app : Option String),
        (_start_span env kind name session_id none none ml_app).get_tag MODEL_PROVIDER
          = none) := by
  refine ⟨?_, ?_, ?_, ?_⟩
  · intro env kind name sid mn mp mla
    obtain ⟨es, em, ep, epp⟩ := env
    cases epp <;> cases mn <;> cases mp <;> cases sid <;> cases es <;>
      simp [_start_span, MSpan.get_tag, MSpan.set_tag_str, dinsert, dlookup,
        SPAN_KIND, MODEL_NAME, MODEL_PROVIDER, SESSION_ID, ML_APP, PARENT_ID_KEY,
        PROPAGATED_PARENT_ID_KEY]
  · intro env kind sid mn mp mla
    obtain ⟨es, em, ep, epp⟩ := env
    cases epp <;> cases mn <;> cases mp <;> cases sid <;> cases es <;>
      simp [_start_span, MSpan.get_tag, MSpan.set_tag_str, dinsert, dlookup, apply_ite,
        SPAN_KIND, MODEL_NAME, MODEL_PROVIDER, SESSION_ID, ML_APP, PARENT_ID_KEY,
        PROPAGATED_PARENT_ID_KEY]
  · intro env kind name sid mla
    obtain ⟨es, em, ep, epp⟩ := env
    cases epp <;> cases sid <;> cases es <;>
      simp [_start_span, MSpan.get_tag, MSpan.set_tag_str, dinsert, dlookup,
        SPAN_KIND, MODEL_NAME, MODEL_PROVIDER, SESSION_ID, ML_APP, PARENT_ID_KEY,
        PROPAGATED_PARENT_ID_KEY]
  · intro env kind name sid mla
    obtain ⟨es, em, ep, epp⟩ := env
    cases epp <;> cases sid <;> cases es <;>
      simp [_start_span, MSpan.get_tag, MSpan.set_tag_str, dinsert, dlookup,
        SPAN_KIND, MODEL_NAME, MODEL_PROVIDER, SESSION_ID, ML_APP, PARENT_ID_KEY,
        PROPAGATED_PARENT_ID_KEY]

/-- Lookup of the two model tags after a factory call in which both were
supplied, as llm and embedding always do. -/
theorem start_span_model_tags (env : SpanEnv) (kind : String)
    (name session_id ml_app : Option String) (mn mp : String) :
    (_start_span env kind name session_id (some mn) (some mp) ml_app).get_tag MODEL_NAME
        = some (PyVal.vstr mn)
  ∧ (_start_span env kind name session_id (some mn) (some mp) ml_app).get_tag MODEL_PROVIDER
        = some (PyVal.vstr mp) := by
  obtain ⟨es, em, ep, epp⟩ := env
  cases epp <;> cases session_id <;> cases es <;>
    simp [_start_span, MSpan.get_tag, MSpan.set_tag_str, dinsert, dlookup,
      SPAN_KIND, MODEL_NAME, MODEL_PROVIDER, SESSION_ID, ML_APP, PARENT_ID_KEY,
      PROPAGATED_PARENT_ID_KEY]

/-- C9: the llm and embedding constructors substitute the string custom for
an absent model name and provider before calling the span factory, so every
span created through them carries both model tags, and with neither supplied
both tags hold the string custom. -/
theorem llm_embedding_custom_c9 :
    (∀ (env : SpanEnv) (name session_id ml_app : Option String),
        (llm env none name none session_id ml_app).get_tag MODEL_NAME
            = some (PyVal.vstr "custom")
      ∧ (llm env none name none session_id ml_app).get_tag MODEL_PROVIDER
            = some (PyVal.vstr "custom")
      ∧ (embedding env none name none session_id ml_app).get_tag MODEL_NAME
            = some (PyVal.vstr "custom")
      ∧ (embedding env none name none session_id ml_app).get_tag MODEL_PROVIDER
            = some (PyVal.vstr "custom"))
  ∧ (∀ (env : SpanEnv) (model_name name model_provider session_id ml_app : Option String),
        ((llm env model_name name model_provider session_id ml_app).get_tag
            MODEL_NAME).isSome = true
      ∧ ((llm env model_name name model_provider session_id ml_app).get_tag
            MODEL_PROVIDER).isSome = true
      ∧ ((embedding env model_name name model_provider session_id ml_app).get_tag
            MODEL_NAME).isSome = true
      ∧ ((embedding env model_name name model_provider session_id ml_app).get_tag
            MODEL_PROVIDER).isSome = true) := by
  constructor
  · intro env name sid mla
    exact ⟨(start_span_model_tags env "llm" name sid mla "custom" "custom").1,
      (start_span_model_tags env "llm" name sid mla "custom" "custom").2,
      (start_span_model_tags env "embedding" name sid mla "custom" "custom").1,
      (start_span_model_tags env "embedding" name sid mla "custom" "custom").2⟩
  · intro env mn name mp sid mla
    cases mn <;> cases mp <;>
      exact ⟨by simp only [llm]; rw [(start_span_model_tags env "llm" name sid mla _ _).1]; rfl,
        by simp only [llm]; rw [(start_span_model_tags env "llm" name sid mla _ _).2]; rfl,
        by simp only [embedding]
           rw [(start_span_model_tags env "embedding" name sid mla _ _).1]; rfl,
        by simp only [embedding]
           rw [(start_span_model_tags env "embedding" name sid mla _ _).2]; rfl⟩

/-- The success path of submit_evaluation: when every validation step
passes, the call enqueues exactly this record. -/
theorem submit_evaluation_ok (cfg : EvalConfig) (d : List (String × PyVal))
    (label metric_type : String) (v : EvalValue) (tg : Option PyVal)
    (ma : Option String) (ts : Option Int) (md : Option PyVal)
    (h1 : cfg.enabled = true) (h2 : cfg.apiKey ≠ "")
    (h3 : resolveMlApp cfg ma ≠ "") (h4 : ¬ resolveTs cfg ts < 0)
    (h5 : (pyTruthyOpt (dlookup d "span_id") && pyTruthyOpt (dlookup d "trace_id")) = true)
    (h6 : label ≠ "")
    (h7 : ¬ (metric_type = "" ∨
        (strLower metric_type ≠ "categorical" ∧ strLower metric_type ≠ "numerical" ∧
          strLower metric_type ≠ "score")))
    (h8 : ¬ (mappedKind metric_type = "categorical" ∧ v.isStr = false))
    (h9 : ¬ (mappedKind metric_type = "score" ∧ v.isNum = false))
    (h10 : tagsNotDict tg = false) :
    submit_evaluation cfg (PyVal.vdict d) label metric_type v tg ma ts md
      = Except.ok
          { span_id := (dlookup d "span_id").getD PyVal.vnone
            trace_id := (dlookup d "trace_id").getD PyVal.vnone
            label := label
            metric_type := strLower (mappedKind metric_type)
            timestamp_ms := resolveTs cfg ts
            value_key := mappedKind metric_type ++ "_value"
            value := v
            ml_app := resolveMlApp cfg ma
            tags := (buildEvalTags cfg (resolveMlApp cfg ma) tg).map
              (fun p => p.1 ++ ":" ++ p.2)
            metadata := evalMetadata md } := by
  simp [submit_evaluation, h1, h2, h3, h4, h5, h6, h7, h8, h9, h10]

/-- C1 (amended): submit_evaluation validates in this order — service
enabled, backend credential configured, span_context a mapping, application
id resolvable, timestamp a non-negative integer defaulting to the current
clock, both ids present and truthy in the mapping, label non-empty, metric
kind among categorical, score or the numerical alias, value type matching
the kind, tags a mapping — the first failing check aborts with its own
diagnostic and enqueues nothing, and a fully valid call enqueues one record;
the embedding is total, so no path raises into the caller. -/
theorem submit_evaluation_order_c1 :
    (∀ (cfg : EvalConfig) (sc : PyVal) (label mt : String) (v : EvalValue)
        (tg : Option PyVal) (ma : Option String) (ts : Option Int) (md : Option PyVal),
        cfg.enabled = false →
        submit_evaluation cfg sc label mt v tg ma ts md = Except.error EvalErr.notEnabled)
  ∧ (∀ cfg (sc : PyVal) label mt v (tg : Option PyVal) (ma : Option String)
        (ts : Option Int) (md : Option PyVal),
        cfg.enabled = true → cfg.apiKey = "" →
        submit_evaluation cfg sc label mt v tg ma ts md = Except.error EvalErr.noApiKey)
  ∧ (∀ cfg (sc : PyVal) label mt v (tg : Option PyVal) (ma : Option String)
        (ts : Option Int) (md : Option PyVal),
        cfg.enabled = true → cfg.apiKey ≠ "" → (∀ dd, sc ≠ PyVal.vdict dd) →
        submit_evaluation cfg sc label mt v tg ma ts md
          = Except.error EvalErr.spanContextNotDict)
  ∧ (∀ cfg (dd : List (String × PyVal)) label mt v (tg : Option PyVal) (ma : Option String)
        (ts : Option Int) (md : Option PyVal),
        cfg.enabled = true → cfg.apiKey ≠ "" → resolveMlApp cfg ma = "" →
        submit_evaluation cfg (PyVal.vdict dd) label mt v tg ma ts md
          = Except.error EvalErr.noMlApp)
  ∧ (∀ cfg (dd : List (String × PyVal)) label mt v (tg : Option PyVal) (ma : Option String)
        (ts : Option Int) (md : Option PyVal),
        cfg.enabled = true → cfg.apiKey ≠ "" → resolveMlApp cfg ma ≠ "" →
        resolveTs cfg ts < 0 →
        submit_evaluation cfg (PyVal.vdict dd) label mt v tg ma ts md
          = Except.error EvalErr.badTimestamp)
  ∧ (∀ cfg (dd : List (String × PyVal)) label mt v (tg : Option PyVal) (ma : Option String)
        (ts : Option Int) (md : Option PyVal),
        cfg.enabled = true → cfg.apiKey ≠ "" → resolveMlApp cfg ma ≠ "" →
        ¬ resolveTs cfg ts < 0 →
        (pyTruthyOpt (dlookup dd "span_id") && pyTruthyOpt (dlookup dd "trace_id")) = false →
        submit_evaluation cfg (PyVal.vdict dd) label mt v tg ma ts md
          = Except.error EvalErr.missingIds)
  ∧ (∀ cfg (dd : List (String × PyVal)) label mt v (tg : Option PyVal) (ma : Option String)
        (ts : Option Int) (md : Option PyVal),
        cfg.enabled = true → cfg.apiKey ≠ "" → resolveMlApp cfg ma ≠ "" →
        ¬ resolveTs cfg ts < 0 →
        (pyTruthyOpt (dlookup dd "span_id") && pyTruthyOpt (dlookup dd "trace_id")) = true →
        label = "" →
        submit_evaluation cfg (PyVal.vdict dd) label mt v tg ma ts md
          = Except.error EvalErr.emptyLabel)
  ∧ (∀ cfg (dd : List (String × PyVal)) label mt v (tg : Option PyVal) (ma : Option String)
        (ts : Option Int) (md : Option PyVal),
        cfg.enabled = true → cfg.apiKey ≠ "" → resolveMlApp cfg ma ≠ "" →
        ¬ resolveTs cfg ts < 0 →
        (pyTruthyOpt (dlookup dd "span_id") && pyTruthyOpt (dlookup dd "trace_id")) = true →
        label ≠ "" →
        (mt = "" ∨ (strLower mt ≠ "categorical" ∧ strLower mt ≠ "numerical" ∧
          strLower mt ≠ "score")) →
        submit_evaluation cfg (PyVal.vdict dd) label mt v tg ma ts md
          = Except.error EvalErr.badMetricType)
  ∧ (∀ cfg (dd : List (String × PyVal)) label mt v (tg : Option PyVal) (ma : Option String)
        (ts : Option Int) (md : Option PyVal),
        cfg.enabled = true → cfg.apiKey ≠ "" → resolveMlApp cfg ma ≠ "" →
        ¬ resolveTs cfg ts < 0 →
        (pyTruthyOpt (dlookup dd "span_id") && pyTruthyOpt (dlookup dd "trace_id")) = true →
        label ≠ "" →
        ¬ (mt = "" ∨ (strLower mt ≠ "categorical" ∧ strLower mt ≠ "numerical" ∧
          strLower mt ≠ "score")) →
        mappedKind mt = "categorical" → v.isStr = false →
        submit_evaluation cfg (PyVal.vdict dd) label mt v tg ma ts md
          = Except.error EvalErr.badCategoricalValue)
  ∧ (∀ cfg (dd : List (String × PyVal)) label mt v (tg : Option PyVal) (ma : Option String)
        (ts : Option Int) (md : Option PyVal),
        cfg.enabled = true → cfg.apiKey ≠ "" → resolveMlApp cfg ma ≠ "" →
        ¬ resolveTs cfg ts < 0 →
        (pyTruthyOpt (dlookup dd "span_id") && pyTruthyOpt (dlookup dd "trace_id")) = true →
        label ≠ "" →
        ¬ (mt = "" ∨ (strLower mt ≠ "categorical" ∧ strLower mt ≠ "numerical" ∧
          strLower mt ≠ "score")) →
        ¬ (mappedKind mt = "categorical" ∧ v.isStr = false) →
        mappedKind mt = "score" → v.isNum = false →
        submit_evaluation cfg (PyVal.vdict dd) label mt v tg ma ts md
          = Except.error EvalErr.badScoreValue)
  ∧ (∀ cfg (dd : List (String × PyVal)) label mt v (tg : Option PyVal) (ma : Option String)
        (ts : Option Int) (md : Option PyVal),
        cfg.enabled = true → cfg.apiKey ≠ "" → resolveMlApp cfg ma ≠ "" →
        ¬ resolveTs cfg ts < 0 →
        (pyTruthyOpt (dlookup dd "span_id") && pyTruthyOpt (dlookup dd "trace_id")) = true →
        label ≠ "" →
        ¬ (mt = "" ∨ (strLower mt ≠ "categorical" ∧ strLower mt ≠ "numerical" ∧
          strLower mt ≠ "score")) →
        ¬ (mappedKind mt = "categorical" ∧ v.isStr = false) →
        ¬ (mappedKind mt = "score" ∧ v.isNum = false) →
        tagsNotDict tg = true →
        submit_evaluation cfg (PyVal.vdict dd) label mt v tg ma ts md
          = Except.error EvalErr.tagsNotDict)
  ∧ (∀ cfg (dd : List (String × PyVal)) label mt v (tg : Option PyVal) (ma : Option String)
        (ts : Option Int) (md : Option PyVal),
        cfg.enabled = true → cfg.apiKey ≠ "" → resolveMlApp cfg ma ≠ "" →
        ¬ resolveTs cfg ts < 0 →
        (pyTruthyOpt (dlookup dd "span_id") && pyTruthyOpt (dlookup dd "trace_id")) = true →
        label ≠ "" →
        ¬ (mt = "" ∨ (strLower mt ≠ "categorical" ∧ strLower mt ≠ "numerical" ∧
          strLower mt ≠ "score")) →
        ¬ (mappedKind mt = "categorical" ∧ v.isStr = false) →
        ¬ (mappedKind mt = "score" ∧ v.isNum = false) →
        tagsNotDict tg = false →
        ∃ r, submit_evaluation cfg (PyVal.vdict dd) label mt v tg ma ts md
          = Except.ok r) := by
  refine ⟨?_, ?_, ?_, ?_, ?_, ?_, ?_, ?_, ?_, ?_, ?_, ?_⟩
  · intro cfg sc label mt v tg ma ts md h1
    simp [submit_evaluation, h1]
  · intro cfg sc label mt v tg ma ts md h1 h2
    simp [submit_evaluation, h1, h2]
  · intro cfg sc label mt v tg ma ts md h1 h2 h3
    cases sc with
    | vdict dd => exact absurd rfl (h3 dd)
    | vnone => simp [submit_evaluation, h1, h2]
    | vstr s => simp [submit_evaluation, h1, h2]
    | vint n => simp [submit_evaluation, h1, h2]
    | vlist l => simp [submit_evaluation, h1, h2]
  · intro cfg dd label mt v tg ma ts md h1 h2 h3
    simp [submit_evaluation, h1, h2, h3]
  · intro cfg dd label mt v tg ma ts md h1 h2 h3 h4
    simp [submit_evaluation, h1, h2, h3, h4]
  · intro cfg dd label mt v tg ma ts md h1 h2 h3 h4 h5
    simp [submit_evaluation, h1, h2, h3, h4, h5]
  · intro cfg dd label mt v tg ma ts md h1 h2 h3 h4 h5 h6
    simp [submit_evaluation, h1, h2, h3, h4, h5, h6]
  · intro cfg dd label mt v tg ma ts md h1 h2 h3 h4 h5 h6 h7
    rcases h7 with h7 | ⟨ha, hb, hc⟩
    · simp [submit_evaluation, h1, h2, h3, h4, h5, h6, h7]
    · simp [submit_evaluation, h1, h2, h3, h4, h5, h6, ha, hb, hc]
  · intro cfg dd label mt v tg ma ts md h1 h2 h3 h4 h5 h6 h7 h8 h9
    simp [submit_evaluation, h1, h2, h3, h4, h5, h6, h7, h8, h9]
  · intro cfg dd label mt v tg ma ts md h1 h2 h3 h4 h5 h6 h7 h8 h9 h10
    simp [submit_evaluation, h1, h2, h3, h4, h5, h6, h7, h8, h9, h10]
  · intro cfg dd label mt v tg ma ts md h1 h2 h3 h4 h5 h6 h7 h8 h9 h10
    simp [submit_evaluation, h1, h2, h3, h4, h5, h6, h7, h8, h9, h10]
  · intro cfg dd label mt v tg ma ts md h1 h2 h3 h4 h5 h6 h7 h8 h9 h10
    exact ⟨_, submit_evaluation_ok cfg dd label mt v tg ma ts md h1 h2 h3 h4 h5 h6 h7
      h8 h9 h10⟩

/-- C1 counterexample: at a mapping span reference missing both ids with an
unresolvable application id, the code aborts at the application-id check,
while the order the claim states aborts at the both-ids check. -/
theorem submit_evaluation_order_c1_cex :
    submit_evaluation
        { enabled := true, apiKey := "key", mlAppDefault := "",
          ddtraceVersion := "2.9.0", nowMs := 1000 }
        (PyVal.vdict []) "l" "score" (EvalValue.vnum 1) none none none none
      = Except.error EvalErr.noMlApp
  ∧ submit_evaluation_claimOrder
        { enabled := true, apiKey := "key", mlAppDefault := "",
          ddtraceVersion := "2.9.0", nowMs := 1000 }
        (PyVal.vdict []) "l" "score" (EvalValue.vnum 1) none none none none
      = Except.error EvalErr.missingIds
  ∧ EvalErr.noMlApp ≠ EvalErr.missingIds := ⟨rfl, rfl, by decide⟩

/-- Witness for C1: a fully valid call passes every check and enqueues. -/
theorem submit_evaluation_order_c1_witness :
    ∃ r, submit_evaluation evalCfgW scW "accuracy" "score" (EvalValue.vnum 9) none none
        none none = Except.ok r :=
  submit_evaluation_order_c1.2.2.2.2.2.2.2.2.2.2.2 evalCfgW scListW "accuracy" "score"
    (EvalValue.vnum 9) none none none none rfl (by decide) (by decide) (by decide)
    (by decide) (by decide) (by decide)
    (by intro hc; exact absurd hc.1 (by decide))
    (by intro hc; simp [EvalValue.isNum] at hc) rfl

/-- C5: a metric type that lowercases to numerical, in any letter case,
passes validation, behaves exactly as a score call, and the enqueued record
stores the score type with the value under the score value key. -/
theorem submit_evaluation_numerical_c5 (mt : String) (h : strLower mt = "numerical")
    (n : Int) :
    submit_evaluation evalCfgW scW "quality" mt (EvalValue.vnum n) none none none none
      = submit_evaluation evalCfgW scW "quality" "score" (EvalValue.vnum n) none none
          none none
  ∧ ∃ r, submit_evaluation evalCfgW scW "quality" mt (EvalValue.vnum n) none none none none
        = Except.ok r ∧ r.metric_type = "score" ∧ r.value_key = "score_value"
        ∧ r.value = EvalValue.vnum n := by
  have hne : mt ≠ "" := by
    intro he
    rw [he] at h
    exact absurd h (by decide)
  have hmk : mappedKind mt = "score" := by
    simp [mappedKind, h]
  have hLok := submit_evaluation_ok evalCfgW scListW "quality" mt (EvalValue.vnum n)
    none none none none rfl (by decide) (by decide) (by decide) (by decide) (by decide)
    (fun hor => hor.elim hne (fun h3 => h3.2.1 h))
    (fun hc => absurd (hmk ▸ hc.1) (by decide))
    (fun hc => absurd hc.2 (by simp [EvalValue.isNum])) rfl
  constructor
  · show submit_evaluation evalCfgW (PyVal.vdict scListW) "quality" mt (EvalValue.vnum n)
        none none none none
      = submit_evaluation evalCfgW (PyVal.vdict scListW) "quality" "score"
          (EvalValue.vnum n) none none none none
    rw [hLok, hmk]
    rfl
  · refine ⟨_, hLok, ?_, ?_, rfl⟩
    · show strLower (mappedKind mt) = "score"
      rw [hmk]
      decide
    · show mappedKind mt ++ "_value" = "score_value"
      rw [hmk]
      decide

/-- Witness for C5 at the uppercase alias. -/
theorem submit_evaluation_numerical_c5_witness :
    submit_evaluation evalCfgW scW "quality" "NUMERICAL" (EvalValue.vnum 7) none none
        none none
      = submit_evaluation evalCfgW scW "quality" "score" (EvalValue.vnum 7) none none
          none none
  ∧ ∃ r, submit_evaluation evalCfgW scW "quality" "NUMERICAL" (EvalValue.vnum 7) none none
        none none = Except.ok r ∧ r.metric_type = "score" ∧ r.value_key = "score_value"
        ∧ r.value = EvalValue.vnum 7 :=
  submit_evaluation_numerical_c5 "NUMERICAL" (by decide) 7

/-- C10: a zero timestamp argument is falsy, so the default substitution
replaces it with the current clock and the enqueued record carries the
clock value, not zero. -/
theorem submit_evaluation_ts_zero_c10 (cfg : EvalConfig) (h1 : cfg.enabled = true)
    (h2 : cfg.apiKey ≠ "") (h3 : cfg.mlAppDefault ≠ "") (h4 : 0 ≤ cfg.nowMs) (n : Int) :
    ∃ r, submit_evaluation cfg scW "accuracy" "score" (EvalValue.vnum n) none none (some 0)
          none = Except.ok r ∧ r.timestamp_ms = cfg.nowMs := by
  have hts : resolveTs cfg (some 0) = cfg.nowMs := by simp [resolveTs]
  refine ⟨_, submit_evaluation_ok cfg scListW "accuracy" "score" (EvalValue.vnum n) none
      none (some 0) none h1 h2 ?_ ?_ (by decide) (by decide) (by decide)
      (fun hc => absurd hc.1 (by decide))
      (fun hc => absurd hc.2 (by simp [EvalValue.isNum])) rfl, ?_⟩
  · simpa [resolveMlApp] using h3
  · rw [hts]
    omega
  · show resolveTs cfg (some 0) = cfg.nowMs
    exact hts

/-- Witness for C10 at the concrete configuration. -/
theorem submit_evaluation_ts_zero_c10_witness :
    ∃ r, submit_evaluation evalCfgW scW "accuracy" "score" (EvalValue.vnum 5) none none
          (some 0) none = Except.ok r ∧ r.timestamp_ms = evalCfgW.nowMs :=
  submit_evaluation_ts_zero_c10 evalCfgW rfl (by decide) (by decide) (by decide) 5

end DDLLMObs
